import Mathlib

/-!
The BitBucket integration of rhtap-cli (pkg/integrations/bitbucket.go).

A shallow embedding of the BitBucket integration of rhtap-cli: the integration
record, its validation, its contextual logger, and the secret provisioning
sequence (existence check, optional delete, create) run against an explicit
model of the cluster.
-/

namespace Integrations

/-! ## Go errors -/

/-- Go error values: a plain error carrying a message (errors.New, fmt.Errorf
without a wrapping verb) or an error that wraps another one (fmt.Errorf with
the w verb). -/
inductive GoError where
  | new (msg : String)
  | wrap (msg : String) (inner : GoError)
deriving DecidableEq, Repr

/-- The message of an error, as returned by its Error method. -/
def GoError.Error : GoError → String
  | .new msg => msg
  | .wrap msg _ => msg

/-- The errors.Is relation: the error itself or one on its unwrap chain equals
the target. -/
def GoError.Is : GoError → GoError → Bool
  | .new msg, target => decide (GoError.new msg = target)
  | .wrap msg inner, target =>
      decide (GoError.wrap msg inner = target) || GoError.Is inner target

/-- The call fmt.Errorf("%w: %s", err, s): the message is the message of err,
a colon and a blank, then s; the result wraps err. -/
def Errorf_w_s (err : GoError) (s : String) : GoError :=
  .wrap (err.Error ++ ": " ++ s) err

/-! ## Structured logging (log/slog) -/

/-- Values attached to a logger as contextual fields. -/
inductive LogValue where
  | bool (b : Bool)
  | int (n : Nat)
  | str (s : String)
deriving DecidableEq, Repr

/-- Severity of an emitted log record. -/
inductive Level where
  | Debug
  | Info
deriving DecidableEq, Repr

/-- A logger is the list of key-value fields attached to it so far. -/
structure Logger where
  attrs : List (String × LogValue)
deriving DecidableEq, Repr

/-- A log record as handed to the logger's handler. -/
structure Record where
  level : Level
  msg : String
  attrs : List (String × LogValue)
deriving DecidableEq, Repr

/-- The method With of slog.Logger: a logger with the given fields attached
after the ones already present. -/
def Logger.With (l : Logger) (args : List (String × LogValue)) : Logger :=
  { attrs := l.attrs ++ args }

/-! ## Configuration (pkg/config) -/

/-- Modelled from the spec: the feature type of pkg/config is not part of the
sources; a feature is resolvable to a target namespace. -/
structure FeatureSpec where
  Namespace : String
deriving DecidableEq, Repr

/-- Modelled from the spec: the method GetNamespace of a feature, not part of
the sources; it gives the namespace the feature is mapped to. -/
def FeatureSpec.GetNamespace (f : FeatureSpec) : String :=
  f.Namespace

/-- Modelled from the spec: the configuration provider of pkg/config is not
part of the sources; it exposes a lookup of a named feature that gives the
feature or an error. -/
structure Config where
  GetFeature : String → Except GoError FeatureSpec

/-! ## The integration record -/

/-- The constant defaultPublicBitBucketHost. -/
def defaultPublicBitBucketHost : String := "bitbucket.org"

/-- The struct BitBucketIntegration. The kubernetes client field is a handle
on the cluster, which the operations below receive as an explicit state. -/
structure BitBucketIntegration where
  logger : Logger
  cfg : Config
  force : Bool
  appPassword : String
  host : String
  username : String

/-- The method log: the logger with the contextual fields attached. The
application password contributes its length in bytes only. -/
def log (g : BitBucketIntegration) : Logger :=
  g.logger.With
    [ ("force", .bool g.force),
      ("host", .str g.host),
      ("app-password", .int g.appPassword.utf8ByteSize),
      ("username", .str g.username) ]

/-- The method Validate: the returned error (none for nil) and the receiver
after the call. -/
def Validate (g : BitBucketIntegration) : Option GoError × BitBucketIntegration :=
  if g.appPassword = "" then
    (some (.new "app-password is required"), g)
  else
    let g1 := if g.host = "" then { g with host := defaultPublicBitBucketHost } else g
    if g1.username = "" then
      (some (.new "username is required"), g1)
    else
      (none, g1)

/-! ## Cluster objects -/

/-- The type NamespacedName of k8s.io/apimachinery/pkg/types. -/
structure NamespacedName where
  Namespace : String
  Name : String
deriving DecidableEq, Repr

/-- The method String of NamespacedName: namespace, a slash, name. -/
def NamespacedName.String (n : NamespacedName) : String :=
  n.Namespace ++ "/" ++ n.Name

/-- The conversion of a Go string to a byte slice: its bytes, unchanged. -/
def toBytes (s : String) : List UInt8 :=
  s.toUTF8.data.toList

/-- The constant SecretTypeOpaque of k8s.io/api/core/v1. -/
def SecretTypeOpaque : String := "Opaque"

/-- The part of a core/v1 Secret the integration fills in: object metadata
(namespace and name), the secret type, and the data map, kept as a list of
key-value pairs. -/
structure Secret where
  Namespace : String
  Name : String
  Typ : String
  Data : List (String × List UInt8)
deriving DecidableEq, Repr

/-- The identity of a stored secret. -/
def Secret.key (s : Secret) : NamespacedName :=
  { Namespace := s.Namespace, Name := s.Name }

/-- Requests issued to the cluster API. -/
inductive Request where
  | get (name : NamespacedName)
  | delete (name : NamespacedName)
  | create (ns : String) (secret : Secret)
deriving DecidableEq, Repr

/-- Modelled from the spec: the cluster behind the kubernetes client of pkg/k8s,
which is not part of the sources. The secrets it stores, each under the
identity given by its namespace and name; the error with which each kind of
call fails, if it is to fail for a reason outside the stored secrets
(permission, network, missing namespace); the errors the API answers for a
missing and for an already present object; the requests issued so far; and the
log records emitted so far. -/
structure World where
  secrets : List Secret
  existsErr : Option GoError
  deleteErr : Option GoError
  clientErr : Option GoError
  createErr : Option GoError
  notFound : GoError
  alreadyExists : GoError
  requests : List Request
  records : List Record

/-- Whether a secret is stored under the identity. -/
def World.has (w : World) (name : NamespacedName) : Bool :=
  w.secrets.any (fun s => decide (s.key = name))

/-- The secrets stored under the identity. -/
def World.stored (w : World) (name : NamespacedName) : List Secret :=
  w.secrets.filter (fun s => decide (s.key = name))

/-- The secrets stored under any other identity. -/
def World.others (w : World) (name : NamespacedName) : List Secret :=
  w.secrets.filter (fun s => decide (s.key ≠ name))

/-- A request is issued to the cluster API. -/
def World.issue (w : World) (r : Request) : World :=
  { w with requests := w.requests ++ [r] }

/-- The stored secrets are replaced. -/
def World.withSecrets (w : World) (secrets : List Secret) : World :=
  { w with secrets := secrets }

/-- A log record is emitted. -/
def World.emit (w : World) (r : Record) : World :=
  { w with records := w.records ++ [r] }

/-- The method Debug of slog.Logger: a record with the message and the
fields of the logger is emitted. -/
def Logger.Debug (l : Logger) (msg : String) (w : World) : World :=
  w.emit { level := .Debug, msg := msg, attrs := l.attrs }

/-- The method Info of slog.Logger. -/
def Logger.Info (l : Logger) (msg : String) (w : World) : World :=
  w.emit { level := .Info, msg := msg, attrs := l.attrs }

/-- Modelled from the spec: the function SecretExists of pkg/k8s, not part of
the sources: secret-exists(namespace, name) gives a boolean or an error. The
request is issued; it fails with the error the cluster has for it, and
otherwise reports whether a secret is stored under the identity. -/
def SecretExists (w : World) (name : NamespacedName) : Except GoError Bool × World :=
  let w1 := w.issue (.get name)
  match w.existsErr with
  | some err => (.error err, w1)
  | none => (.ok (w.has name), w1)

/-- Modelled from the spec: the function DeleteSecret of pkg/k8s, not part of
the sources: secret-delete(namespace, name) gives success or an error. The
request is issued; it fails with the error the cluster has for it, or with
the not-found error when nothing is stored under the identity, and otherwise
removes what is stored under the identity. -/
def DeleteSecret (w : World) (name : NamespacedName) : Option GoError × World :=
  let w1 := w.issue (.delete name)
  match w.deleteErr with
  | some err => (some err, w1)
  | none =>
    if w.has name then
      (none, w1.withSecrets (w.others name))
    else
      (some w.notFound, w1)

/-- Modelled from the spec: the method CoreV1ClientSet of the kubernetes
client of pkg/k8s, not part of the sources: it gives a client scoped to the
namespace, or an error. No request is issued. -/
def CoreV1ClientSet (w : World) (_ns : String) : Option GoError :=
  w.clientErr

/-- Modelled from the spec: secret-create(namespace, secretObject) gives
success or an error. The request is issued; it fails with the error the
cluster has for it, or with the already-exists error when a secret is stored
under the identity of the object, and otherwise stores the object. -/
def SecretsCreate (w : World) (ns : String) (secret : Secret) : Option GoError × World :=
  let w1 := w.issue (.create ns secret)
  match w.createErr with
  | some err => (some err, w1)
  | none =>
    if w.has secret.key then
      (some w.alreadyExists, w1)
    else
      (none, w1.withSecrets (w.secrets ++ [secret]))

/-- Declarations of the repository the integration refers to and that are not
part of the sources: the key of the Red Hat Developer Hub feature in
pkg/config, the error value ErrSecretAlreadyExists of this package, and the
function EnsureOpenShiftProject of pkg/k8s (logger, cluster, namespace). -/
structure Env where
  RedHatDeveloperHub : String
  ErrSecretAlreadyExists : GoError
  EnsureOpenShiftProject : Logger → World → String → Option GoError × World

/-! ## Provisioning -/

/-- The method EnsureNamespace. -/
def EnsureNamespace (env : Env) (g : BitBucketIntegration) (w : World) :
    Option GoError × World :=
  match g.cfg.GetFeature env.RedHatDeveloperHub with
  | .error err => (some err, w)
  | .ok feature => env.EnsureOpenShiftProject (log g) w feature.GetNamespace

/-- The method secretName. The error of the lookup is discarded and the
namespace is read from the returned feature; when the lookup has failed there
is no feature to read it from, and no name is produced. -/
def secretName (env : Env) (g : BitBucketIntegration) : Option NamespacedName :=
  match g.cfg.GetFeature env.RedHatDeveloperHub with
  | .error _ => none
  | .ok feature =>
    some { Namespace := feature.GetNamespace, Name := "rhtap-bitbucket-integration" }

/-- The method prepareSecret: none when the secret name cannot be produced,
otherwise the returned error (none for nil) and the cluster after the call. -/
def prepareSecret (env : Env) (g : BitBucketIntegration) (w : World) :
    Option (Option GoError × World) :=
  let w := (log g).Debug "Checking if integration secret exists" w
  match secretName env g with
  | none => none
  | some name =>
    match SecretExists w name with
    | (.error err, w) => some (some err, w)
    | (.ok false, w) =>
      some (none, (log g).Debug "Integration secret does not exist" w)
    | (.ok true, w) =>
      if !g.force then
        let w := (log g).Debug "Integration secret already exists" w
        some (some (Errorf_w_s env.ErrSecretAlreadyExists name.String), w)
      else
        let w := (log g).Debug "Integration secret already exists, recreating it" w
        some (DeleteSecret w name)

/-- The method store: none when the secret name cannot be produced, otherwise
the returned error (none for nil) and the cluster after the call. -/
def store (env : Env) (g : BitBucketIntegration) (w : World) :
    Option (Option GoError × World) :=
  match secretName env g with
  | none => none
  | some name =>
    let secret : Secret :=
      { Namespace := name.Namespace,
        Name := name.Name,
        Typ := SecretTypeOpaque,
        Data :=
          [ ("appPassword", toBytes g.appPassword),
            ("host", toBytes g.host),
            ("username", toBytes g.username) ] }
    let logger := (log g).With
      [ ("secret-namespace", .str secret.Namespace),
        ("secret-name", .str secret.Name) ]
    let w := logger.Debug "Creating integration secret" w
    match CoreV1ClientSet w name.Namespace with
    | some err => some (some err, w)
    | none =>
      match SecretsCreate w name.Namespace secret with
      | (none, w) => some (none, logger.Info "Integration secret created successfully!" w)
      | (some err, w) => some (some err, w)

/-- The method Create. -/
def Create (env : Env) (g : BitBucketIntegration) (w : World) :
    Option (Option GoError × World) :=
  let logger := log g
  let w := logger.Info "Inspecting the cluster for an existing BitBucket integration secret" w
  match prepareSecret env g w with
  | none => none
  | some (some err, w) => some (some err, w)
  | some (none, w) => store env g w

/-- The constructor NewBitBucketIntegration. -/
def NewBitBucketIntegration (logger : Logger) (cfg : Config) : BitBucketIntegration :=
  { logger := logger, cfg := cfg, force := false, appPassword := "", host := "", username := "" }

/-- The identity under which the integration keeps its secret, for a feature
namespace. -/
def targetName (ns : String) : NamespacedName :=
  { Namespace := ns, Name := "rhtap-bitbucket-integration" }

/-- The secret the integration is expected to submit for a feature namespace:
of type Opaque, with the three fields as raw bytes. Used to state what store
does. -/
def expectedSecret (ns appPassword host username : String) : Secret :=
  { Namespace := ns,
    Name := "rhtap-bitbucket-integration",
    Typ := "Opaque",
    Data :=
      [ ("appPassword", toBytes appPassword),
        ("host", toBytes host),
        ("username", toBytes username) ] }

/-! ## Sample values -/

/-- A configuration with the Red Hat Developer Hub feature in namespace rhtap. -/
def sampleConfig : Config :=
  { GetFeature := fun name =>
      if name = "redHatDeveloperHub" then .ok { Namespace := "rhtap" }
      else .error (.new ("feature " ++ name ++ " not found")) }

/-- A configuration without any feature. -/
def emptyConfig : Config :=
  { GetFeature := fun name => .error (.new ("feature " ++ name ++ " not found")) }

/-- Sample values for the declarations outside the sources; the namespace
collaborator logs the namespace it is asked for and succeeds. -/
def sampleEnv : Env :=
  { RedHatDeveloperHub := "redHatDeveloperHub",
    ErrSecretAlreadyExists := .new "secret already exists",
    EnsureOpenShiftProject := fun l w ns => (none, l.Info ("project " ++ ns) w) }

/-- A cluster that stores the given secrets and whose calls do not fail. -/
def sampleWorld (secrets : List Secret) : World :=
  { secrets := secrets,
    existsErr := none, deleteErr := none, clientErr := none, createErr := none,
    notFound := .new "not found", alreadyExists := .new "already exists",
    requests := [], records := [] }

/-- An integration over the sample configuration. -/
def sampleIntegration (force : Bool) (appPassword host username : String) :
    BitBucketIntegration :=
  { logger := { attrs := [] }, cfg := sampleConfig, force := force,
    appPassword := appPassword, host := host, username := username }

/-- A secret stored earlier under the target identity, with another payload. -/
def oldSecret : Secret :=
  { Namespace := "rhtap", Name := "rhtap-bitbucket-integration", Typ := SecretTypeOpaque,
    Data := [("appPassword", toBytes "old"), ("stale", toBytes "x")] }

/-- A secret of another integration in the same namespace. -/
def otherSecret : Secret :=
  { Namespace := "rhtap", Name := "rhtap-github-integration", Typ := SecretTypeOpaque,
    Data := [("token", toBytes "t")] }

/-! ## Validation -/

/-- Validate leaves every field but host as it was. -/
theorem Validate_frame (g : BitBucketIntegration) :
    (Validate g).2.appPassword = g.appPassword ∧ (Validate g).2.username = g.username ∧
    (Validate g).2.force = g.force := by
  by_cases h1 : g.appPassword = "" <;> by_cases h2 : g.host = "" <;>
    by_cases h3 : g.username = "" <;> simp [Validate, h1, h2, h3]

/-- C1: Validate returns an error exactly when appPassword or username is
empty; the error is "app-password is required" when appPassword is empty and
"username is required" when appPassword is set and username is empty. -/
theorem Validate_error_iff (g : BitBucketIntegration) :
    ((Validate g).1 ≠ none ↔ (g.appPassword = "" ∨ g.username = "")) ∧
    (g.appPassword = "" →
      ∃ e, (Validate g).1 = some e ∧ e.Error = "app-password is required") ∧
    (g.appPassword ≠ "" → g.username = "" →
      ∃ e, (Validate g).1 = some e ∧ e.Error = "username is required") := by
  by_cases h1 : g.appPassword = "" <;> by_cases h2 : g.host = "" <;>
    by_cases h3 : g.username = "" <;> simp [Validate, h1, h2, h3, GoError.Error]

/-- Witness of C1: with both fields empty the application password is reported;
with only the username empty the username is reported. -/
theorem Validate_error_iff_witness :
    (∃ e, (Validate (sampleIntegration false "" "" "")).1 = some e ∧
      e.Error = "app-password is required") ∧
    (∃ e, (Validate (sampleIntegration false "tok" "" "")).1 = some e ∧
      e.Error = "username is required") :=
  ⟨(Validate_error_iff (sampleIntegration false "" "" "")).2.1 rfl,
   (Validate_error_iff (sampleIntegration false "tok" "" "")).2.2 (by decide) rfl⟩

/-- C2: with appPassword and username set, Validate succeeds; afterwards host is
"bitbucket.org" if it was empty and is the host given otherwise. -/
theorem Validate_ok_host (g : BitBucketIntegration)
    (hp : g.appPassword ≠ "") (hu : g.username ≠ "") :
    (Validate g).1 = none ∧
    (g.host = "" → (Validate g).2.host = "bitbucket.org") ∧
    (g.host ≠ "" → (Validate g).2.host = g.host) := by
  by_cases h2 : g.host = "" <;>
    simp [Validate, hp, hu, h2, defaultPublicBitBucketHost]

/-- Witness of C2: an empty host becomes the default, a given host is kept. -/
theorem Validate_ok_host_witness :
    ((Validate (sampleIntegration false "tok" "" "alice")).1 = none ∧
      (Validate (sampleIntegration false "tok" "" "alice")).2.host = "bitbucket.org") ∧
    ((Validate (sampleIntegration false "tok" "git.example.com" "alice")).1 = none ∧
      (Validate (sampleIntegration false "tok" "git.example.com" "alice")).2.host =
        "git.example.com") :=
  ⟨⟨(Validate_ok_host (sampleIntegration false "tok" "" "alice")
        (by decide) (by decide)).1,
    (Validate_ok_host (sampleIntegration false "tok" "" "alice")
        (by decide) (by decide)).2.1 rfl⟩,
   ⟨(Validate_ok_host (sampleIntegration false "tok" "git.example.com" "alice")
        (by decide) (by decide)).1,
    (Validate_ok_host (sampleIntegration false "tok" "git.example.com" "alice")
        (by decide) (by decide)).2.2 (by decide)⟩⟩

/-- C3, as stated, fails: with an empty application password Validate returns
before the host is looked at, and an empty host stays empty. -/
theorem Validate_host_default_counterexample :
    ¬ ∀ g : BitBucketIntegration, g.host = "" →
        (Validate g).2.host = defaultPublicBitBucketHost := by
  intro h
  have h0 := h (sampleIntegration false "" "" "alice") rfl
  revert h0
  decide

/-- C3, amended: for every state with an empty host and a non-empty application
password, the host is the default after Validate, whether it succeeds or
fails on the username. -/
theorem Validate_host_default (g : BitBucketIntegration)
    (hh : g.host = "") (hp : g.appPassword ≠ "") :
    (Validate g).2.host = defaultPublicBitBucketHost := by
  by_cases h3 : g.username = "" <;> simp [Validate, hp, hh, h3]

/-- Witness of C3, amended: the host is defaulted although validation fails on
the empty username. -/
theorem Validate_host_default_witness :
    (Validate (sampleIntegration false "tok" "" "")).1 ≠ none ∧
    (Validate (sampleIntegration false "tok" "" "")).2.host = "bitbucket.org" :=
  ⟨by decide, Validate_host_default (sampleIntegration false "tok" "" "") rfl (by decide)⟩

/-- C10: two integrations that agree on force, host and username and whose
application passwords have the same length get the same fields attached by
log: force, host, the length of the application password, username. -/
theorem log_fields_hide_appPassword (g1 g2 : BitBucketIntegration)
    (hf : g1.force = g2.force) (hh : g1.host = g2.host) (hu : g1.username = g2.username)
    (hlen : g1.appPassword.utf8ByteSize = g2.appPassword.utf8ByteSize) :
    ∃ fields : List (String × LogValue),
      log g1 = g1.logger.With fields ∧ log g2 = g2.logger.With fields ∧
      fields =
        [ ("force", .bool g1.force), ("host", .str g1.host),
          ("app-password", .int g1.appPassword.utf8ByteSize),
          ("username", .str g1.username) ] := by
  refine ⟨_, rfl, ?_, rfl⟩
  simp [log, hf, hh, hu, hlen]

/-- Witness of C10: two passwords of three bytes give the same logger. -/
theorem log_fields_hide_appPassword_witness :
    log (sampleIntegration true "tok" "bitbucket.org" "alice") =
      log (sampleIntegration true "abc" "bitbucket.org" "alice") := by
  obtain ⟨fields, h1, h2, _⟩ :=
    log_fields_hide_appPassword (sampleIntegration true "tok" "bitbucket.org" "alice")
      (sampleIntegration true "abc" "bitbucket.org" "alice") rfl rfl rfl rfl
  rw [h1, h2]
  rfl

/-- C8: when the lookup of the Red Hat Developer Hub feature fails,
EnsureNamespace returns that error and leaves the cluster untouched; when it
succeeds, EnsureNamespace returns what the namespace collaborator returns for
the namespace of the feature. -/
theorem EnsureNamespace_lookup (env : Env) (g : BitBucketIntegration) (w : World) :
    (∀ err, g.cfg.GetFeature env.RedHatDeveloperHub = .error err →
      EnsureNamespace env g w = (some err, w)) ∧
    (∀ feature, g.cfg.GetFeature env.RedHatDeveloperHub = .ok feature →
      EnsureNamespace env g w =
        env.EnsureOpenShiftProject (log g) w feature.GetNamespace) := by
  constructor
  · intro err h
    simp [EnsureNamespace, h]
  · intro feature h
    simp [EnsureNamespace, h]

/-- Witness of C8: without the feature the lookup error comes back and the
cluster is as before; with it the collaborator is run on namespace rhtap. -/
theorem EnsureNamespace_lookup_witness :
    EnsureNamespace sampleEnv
        { sampleIntegration false "tok" "" "alice" with cfg := emptyConfig } (sampleWorld []) =
      (some (.new "feature redHatDeveloperHub not found"), sampleWorld []) ∧
    EnsureNamespace sampleEnv (sampleIntegration false "tok" "" "alice") (sampleWorld []) =
      sampleEnv.EnsureOpenShiftProject (log (sampleIntegration false "tok" "" "alice"))
        (sampleWorld []) "rhtap" :=
  ⟨(EnsureNamespace_lookup sampleEnv
      { sampleIntegration false "tok" "" "alice" with cfg := emptyConfig } (sampleWorld [])).1
      (.new "feature redHatDeveloperHub not found") rfl,
   (EnsureNamespace_lookup sampleEnv (sampleIntegration false "tok" "" "alice")
      (sampleWorld [])).2 { Namespace := "rhtap" } rfl⟩

/-! ## Provisioning: auxiliary facts -/

theorem GoError.Is_self (e : GoError) : e.Is e = true := by
  cases e <;> simp [GoError.Is]

theorem Errorf_w_s_Is (err : GoError) (s : String) : (Errorf_w_s err s).Is err = true := by
  simp [Errorf_w_s, GoError.Is, GoError.Is_self]

theorem Errorf_w_s_Error (err : GoError) (s : String) :
    s.data <:+: (Errorf_w_s err s).Error.data := by
  show s.data <:+: (err.Error ++ ": " ++ s).data
  exact ⟨err.Error.data ++ ": ".data, [], by simp⟩

theorem secretName_ok (env : Env) (g : BitBucketIntegration) (feature : FeatureSpec)
    (hcfg : g.cfg.GetFeature env.RedHatDeveloperHub = .ok feature) :
    secretName env g =
      some { Namespace := feature.GetNamespace, Name := "rhtap-bitbucket-integration" } := by
  simp [secretName, hcfg]

@[simp]
theorem World.issue_secrets (w : World) (r : Request) :
    (w.issue r).secrets = w.secrets := rfl

@[simp]
theorem World.issue_requests (w : World) (r : Request) :
    (w.issue r).requests = w.requests ++ [r] := rfl

@[simp]
theorem World.issue_existsErr (w : World) (r : Request) :
    (w.issue r).existsErr = w.existsErr := rfl

@[simp]
theorem World.issue_deleteErr (w : World) (r : Request) :
    (w.issue r).deleteErr = w.deleteErr := rfl

@[simp]
theorem World.issue_clientErr (w : World) (r : Request) :
    (w.issue r).clientErr = w.clientErr := rfl

@[simp]
theorem World.issue_createErr (w : World) (r : Request) :
    (w.issue r).createErr = w.createErr := rfl

@[simp]
theorem World.issue_has (w : World) (r : Request) (n : NamespacedName) :
    (w.issue r).has n = w.has n := rfl

@[simp]
theorem World.issue_others (w : World) (r : Request) (n : NamespacedName) :
    (w.issue r).others n = w.others n := rfl

@[simp]
theorem World.emit_secrets (w : World) (r : Record) :
    (w.emit r).secrets = w.secrets := rfl

@[simp]
theorem World.emit_requests (w : World) (r : Record) :
    (w.emit r).requests = w.requests := rfl

@[simp]
theorem World.emit_existsErr (w : World) (r : Record) :
    (w.emit r).existsErr = w.existsErr := rfl

@[simp]
theorem World.emit_deleteErr (w : World) (r : Record) :
    (w.emit r).deleteErr = w.deleteErr := rfl

@[simp]
theorem World.emit_clientErr (w : World) (r : Record) :
    (w.emit r).clientErr = w.clientErr := rfl

@[simp]
theorem World.emit_createErr (w : World) (r : Record) :
    (w.emit r).createErr = w.createErr := rfl

@[simp]
theorem World.emit_has (w : World) (r : Record) (n : NamespacedName) :
    (w.emit r).has n = w.has n := rfl

@[simp]
theorem World.emit_others (w : World) (r : Record) (n : NamespacedName) :
    (w.emit r).others n = w.others n := rfl

@[simp]
theorem World.withSecrets_secrets (w : World) (l : List Secret) :
    (w.withSecrets l).secrets = l := rfl

@[simp]
theorem World.withSecrets_requests (w : World) (l : List Secret) :
    (w.withSecrets l).requests = w.requests := rfl

@[simp]
theorem World.withSecrets_existsErr (w : World) (l : List Secret) :
    (w.withSecrets l).existsErr = w.existsErr := rfl

@[simp]
theorem World.withSecrets_deleteErr (w : World) (l : List Secret) :
    (w.withSecrets l).deleteErr = w.deleteErr := rfl

@[simp]
theorem World.withSecrets_clientErr (w : World) (l : List Secret) :
    (w.withSecrets l).clientErr = w.clientErr := rfl

@[simp]
theorem World.withSecrets_createErr (w : World) (l : List Secret) :
    (w.withSecrets l).createErr = w.createErr := rfl

/-- After what is stored under an identity has been removed, nothing is
stored under it. -/
@[simp]
theorem World.withSecrets_others_has (w w0 : World) (n : NamespacedName) :
    (w.withSecrets (w0.others n)).has n = false := by
  simp [World.has, World.withSecrets, World.others, List.any_eq_false]

theorem expectedSecret_key (ns a h u : String) :
    (expectedSecret ns a h u).key = targetName ns := rfl

theorem World.stored_of_has_false (w : World) (n : NamespacedName) (h : w.has n = false) :
    w.stored n = [] := by
  simp only [World.has, List.any_eq_false] at h
  simp only [World.stored, List.filter_eq_nil_iff]
  exact h

theorem World.stored_others (w : World) (n : NamespacedName) :
    (w.others n).filter (fun s => decide (s.key = n)) = [] := by
  simp [World.others, List.filter_eq_nil_iff]

theorem World.others_others (w : World) (n : NamespacedName) :
    (w.others n).filter (fun s => decide (s.key ≠ n)) = w.others n := by
  simp [World.others, List.filter_filter]

/-- What store builds is the expected secret. -/
theorem store_eq (env : Env) (g : BitBucketIntegration) (w : World) (feature : FeatureSpec)
    (hcfg : g.cfg.GetFeature env.RedHatDeveloperHub = .ok feature) :
    store env g w =
      match CoreV1ClientSet
          (((log g).With
            [ ("secret-namespace", .str feature.GetNamespace),
              ("secret-name", .str "rhtap-bitbucket-integration") ]).Debug
            "Creating integration secret" w) feature.GetNamespace with
      | some err => some (some err,
          ((log g).With
            [ ("secret-namespace", .str feature.GetNamespace),
              ("secret-name", .str "rhtap-bitbucket-integration") ]).Debug
            "Creating integration secret" w)
      | none =>
        match SecretsCreate
            (((log g).With
              [ ("secret-namespace", .str feature.GetNamespace),
                ("secret-name", .str "rhtap-bitbucket-integration") ]).Debug
              "Creating integration secret" w)
            feature.GetNamespace (expectedSecret feature.GetNamespace g.appPassword g.host g.username) with
        | (none, w) => some (none,
            ((log g).With
              [ ("secret-namespace", .str feature.GetNamespace),
                ("secret-name", .str "rhtap-bitbucket-integration") ]).Info
              "Integration secret created successfully!" w)
        | (some err, w) => some (some err, w) := by
  simp only [store, secretName_ok env g feature hcfg]
  rfl

/-- What prepareSecret does once the name of the secret is known. -/
theorem prepareSecret_eq (env : Env) (g : BitBucketIntegration) (w : World)
    (feature : FeatureSpec)
    (hcfg : g.cfg.GetFeature env.RedHatDeveloperHub = .ok feature) :
    prepareSecret env g w =
      match SecretExists ((log g).Debug "Checking if integration secret exists" w)
          (targetName feature.GetNamespace) with
      | (.error err, w) => some (some err, w)
      | (.ok false, w) =>
        some (none, (log g).Debug "Integration secret does not exist" w)
      | (.ok true, w) =>
        if !g.force then
          some (some (Errorf_w_s env.ErrSecretAlreadyExists
              (feature.GetNamespace ++ "/" ++ "rhtap-bitbucket-integration")),
            (log g).Debug "Integration secret already exists" w)
        else
          some (DeleteSecret
            ((log g).Debug "Integration secret already exists, recreating it" w)
            (targetName feature.GetNamespace)) := by
  simp only [prepareSecret, secretName_ok env g feature hcfg]
  rfl

/-- Create on a cluster where the target secret is stored, with force off. -/
theorem Create_present_noforce (env : Env) (g : BitBucketIntegration) (w : World)
    (feature : FeatureSpec)
    (hcfg : g.cfg.GetFeature env.RedHatDeveloperHub = .ok feature)
    (hhas : w.has (targetName feature.GetNamespace) = true)
    (hcall : w.existsErr = none)
    (hforce : g.force = false) :
    ∃ w1, Create env g w = some
        (some (Errorf_w_s env.ErrSecretAlreadyExists
          (feature.GetNamespace ++ "/" ++ "rhtap-bitbucket-integration")), w1) ∧
      w1.secrets = w.secrets ∧
      w1.requests = w.requests ++ [.get (targetName feature.GetNamespace)] := by
  simp [Create, prepareSecret_eq env g _ feature hcfg, SecretExists, Logger.Info,
    Logger.Debug, hcall, hforce, hhas]

/-- Create on a cluster where the target secret is not stored and no call
fails. -/
theorem Create_absent (env : Env) (g : BitBucketIntegration) (w : World)
    (feature : FeatureSpec)
    (hcfg : g.cfg.GetFeature env.RedHatDeveloperHub = .ok feature)
    (hhas : w.has (targetName feature.GetNamespace) = false)
    (hex : w.existsErr = none) (hcl : w.clientErr = none) (hcr : w.createErr = none) :
    ∃ w1, Create env g w = some (none, w1) ∧
      w1.secrets = w.secrets ++ [expectedSecret feature.GetNamespace g.appPassword g.host g.username] ∧
      w1.requests = w.requests ++
        [.get (targetName feature.GetNamespace),
         .create feature.GetNamespace (expectedSecret feature.GetNamespace g.appPassword g.host g.username)] ∧
      w1.existsErr = w.existsErr ∧ w1.deleteErr = w.deleteErr ∧
      w1.clientErr = w.clientErr ∧ w1.createErr = w.createErr := by
  simp [Create, prepareSecret_eq env g _ feature hcfg, store_eq env g _ feature hcfg,
    SecretExists, CoreV1ClientSet, SecretsCreate, Logger.Info, Logger.Debug, hex, hcl, hcr,
    hhas, expectedSecret_key]

/-- Create with force on, on a cluster where the target secret is stored and
no call fails. -/
theorem Create_force (env : Env) (g : BitBucketIntegration) (w : World)
    (feature : FeatureSpec)
    (hcfg : g.cfg.GetFeature env.RedHatDeveloperHub = .ok feature)
    (hforce : g.force = true)
    (hhas : w.has (targetName feature.GetNamespace) = true)
    (hex : w.existsErr = none) (hdel : w.deleteErr = none)
    (hcl : w.clientErr = none) (hcr : w.createErr = none) :
    ∃ w1, Create env g w = some (none, w1) ∧
      w1.secrets = w.others (targetName feature.GetNamespace) ++
        [expectedSecret feature.GetNamespace g.appPassword g.host g.username] ∧
      w1.requests = w.requests ++
        [.get (targetName feature.GetNamespace),
         .delete (targetName feature.GetNamespace),
         .create feature.GetNamespace (expectedSecret feature.GetNamespace g.appPassword g.host g.username)] := by
  simp [Create, prepareSecret_eq env g _ feature hcfg, store_eq env g _ feature hcfg,
    SecretExists, DeleteSecret, CoreV1ClientSet, SecretsCreate, Logger.Info, Logger.Debug,
    hex, hdel, hcl, hcr, hhas, hforce, expectedSecret_key]

/-- Create with force on, on a cluster where the target secret is stored, the
delete goes through and the create request fails. -/
theorem Create_force_create_fails (env : Env) (g : BitBucketIntegration) (w : World)
    (feature : FeatureSpec) (err : GoError)
    (hcfg : g.cfg.GetFeature env.RedHatDeveloperHub = .ok feature)
    (hforce : g.force = true)
    (hhas : w.has (targetName feature.GetNamespace) = true)
    (hex : w.existsErr = none) (hdel : w.deleteErr = none)
    (hcl : w.clientErr = none) (hcr : w.createErr = some err) :
    ∃ w1, Create env g w = some (some err, w1) ∧
      w1.secrets = w.others (targetName feature.GetNamespace) ∧
      w1.requests = w.requests ++
        [.get (targetName feature.GetNamespace),
         .delete (targetName feature.GetNamespace),
         .create feature.GetNamespace (expectedSecret feature.GetNamespace g.appPassword g.host g.username)] := by
  simp [Create, prepareSecret_eq env g _ feature hcfg, store_eq env g _ feature hcfg,
    SecretExists, DeleteSecret, CoreV1ClientSet, SecretsCreate, Logger.Info, Logger.Debug,
    hex, hdel, hcl, hcr, hhas, hforce]

/-- The function prepareSecret issues no create request. -/
theorem prepareSecret_requests (env : Env) (g : BitBucketIntegration) (w : World)
    (r : Option GoError) (w1 : World) (h : prepareSecret env g w = some (r, w1)) :
    ∀ ns secret, Request.create ns secret ∈ w1.requests →
      Request.create ns secret ∈ w.requests := by
  cases hcfg : g.cfg.GetFeature env.RedHatDeveloperHub with
  | error e => simp [prepareSecret, secretName, hcfg] at h
  | ok feature =>
    rw [prepareSecret_eq env g w feature hcfg] at h
    intro ns secret hmem
    cases hex : w.existsErr with
    | some e =>
      simp [SecretExists, Logger.Debug, hex] at h
      obtain ⟨_, rfl⟩ := h
      simpa using hmem
    | none =>
      cases hhas : w.has (targetName feature.GetNamespace) with
      | false =>
        simp [SecretExists, Logger.Debug, hex, hhas] at h
        obtain ⟨_, rfl⟩ := h
        simpa using hmem
      | true =>
        cases hforce : g.force with
        | false =>
          simp [SecretExists, Logger.Debug, hex, hhas, hforce] at h
          obtain ⟨_, rfl⟩ := h
          simpa using hmem
        | true =>
          cases hdel : w.deleteErr with
          | some e =>
            simp [SecretExists, DeleteSecret, Logger.Debug, hex, hhas, hforce, hdel] at h
            obtain ⟨_, rfl⟩ := h
            simpa using hmem
          | none =>
            simp [SecretExists, DeleteSecret, Logger.Debug, hex, hhas, hforce, hdel] at h
            obtain ⟨_, rfl⟩ := h
            simpa using hmem

/-- An error of prepareSecret is what Create returns, with the cluster as
prepareSecret left it. -/
theorem Create_of_prepareSecret_error (env : Env) (g : BitBucketIntegration) (w : World)
    (err : GoError) (w1 : World)
    (h : prepareSecret env g ((log g).Info
      "Inspecting the cluster for an existing BitBucket integration secret" w) =
        some (some err, w1)) :
    Create env g w = some (some err, w1) := by
  simp [Create, h]

/-- The function prepareSecret when the existence check fails. -/
theorem prepareSecret_exists_fails (env : Env) (g : BitBucketIntegration) (w : World)
    (feature : FeatureSpec) (err : GoError)
    (hcfg : g.cfg.GetFeature env.RedHatDeveloperHub = .ok feature)
    (hex : w.existsErr = some err) :
    ∃ w1, prepareSecret env g w = some (some err, w1) ∧
      w1.secrets = w.secrets ∧
      w1.requests = w.requests ++ [.get (targetName feature.GetNamespace)] := by
  simp [prepareSecret_eq env g _ feature hcfg, SecretExists, Logger.Debug, hex]

/-- The function prepareSecret when the secret is found and force is off. -/
theorem prepareSecret_conflict (env : Env) (g : BitBucketIntegration) (w : World)
    (feature : FeatureSpec)
    (hcfg : g.cfg.GetFeature env.RedHatDeveloperHub = .ok feature)
    (hhas : w.has (targetName feature.GetNamespace) = true)
    (hex : w.existsErr = none) (hforce : g.force = false) :
    ∃ w1, prepareSecret env g w = some
        (some (Errorf_w_s env.ErrSecretAlreadyExists
          (feature.GetNamespace ++ "/" ++ "rhtap-bitbucket-integration")), w1) ∧
      w1.secrets = w.secrets ∧
      w1.requests = w.requests ++ [.get (targetName feature.GetNamespace)] := by
  simp [prepareSecret_eq env g _ feature hcfg, SecretExists, Logger.Debug, hex, hhas, hforce]

/-- The function prepareSecret when the secret is found, force is on and the
delete fails. -/
theorem prepareSecret_delete_fails (env : Env) (g : BitBucketIntegration) (w : World)
    (feature : FeatureSpec) (err : GoError)
    (hcfg : g.cfg.GetFeature env.RedHatDeveloperHub = .ok feature)
    (hhas : w.has (targetName feature.GetNamespace) = true)
    (hex : w.existsErr = none) (hforce : g.force = true)
    (hdel : w.deleteErr = some err) :
    ∃ w1, prepareSecret env g w = some (some err, w1) ∧
      w1.secrets = w.secrets ∧
      w1.requests = w.requests ++
        [.get (targetName feature.GetNamespace),
         .delete (targetName feature.GetNamespace)] := by
  simp [prepareSecret_eq env g _ feature hcfg, SecretExists, DeleteSecret, Logger.Debug,
    hex, hhas, hforce, hdel]

/-- C4, amended: when the existence check finds the target secret and force is
off, Create fails with an error that wraps ErrSecretAlreadyExists and whose
message contains namespace/name of the secret; the stored secrets are as
before and the only request issued is the existence check, neither a delete
nor a create. -/
theorem Create_conflict (env : Env) (g : BitBucketIntegration) (w : World)
    (feature : FeatureSpec)
    (hcfg : g.cfg.GetFeature env.RedHatDeveloperHub = .ok feature)
    (hexists : (SecretExists w { Namespace := feature.GetNamespace,
                                 Name := "rhtap-bitbucket-integration" }).1 = .ok true)
    (hforce : g.force = false) :
    ∃ err w1, Create env g w = some (some err, w1) ∧
      err.Is env.ErrSecretAlreadyExists = true ∧
      (feature.GetNamespace ++ "/" ++ "rhtap-bitbucket-integration").data <:+: err.Error.data ∧
      w1.secrets = w.secrets ∧
      w1.requests = w.requests ++
        [.get { Namespace := feature.GetNamespace, Name := "rhtap-bitbucket-integration" }] := by
  have hboth : w.has (targetName feature.GetNamespace) = true ∧ w.existsErr = none := by
    cases hex : w.existsErr with
    | some e => simp [SecretExists, hex] at hexists
    | none => simpa [SecretExists, hex] using hexists
  obtain ⟨w1, hrun, hs, hr⟩ :=
    Create_present_noforce env g w feature hcfg hboth.1 hboth.2 hforce
  exact ⟨_, w1, hrun, Errorf_w_s_Is _ _, Errorf_w_s_Error _ _, hs, hr⟩

/-- Witness of C4, amended: the secret is stored in namespace rhtap, the
existence check answers and force is off. -/
theorem Create_conflict_witness :
    ∃ err w1,
      Create sampleEnv (sampleIntegration false "tok" "bitbucket.org" "alice")
        (sampleWorld [oldSecret]) = some (some err, w1) ∧
      err.Is sampleEnv.ErrSecretAlreadyExists = true ∧
      ("rhtap" ++ "/" ++ "rhtap-bitbucket-integration").data <:+: err.Error.data ∧
      w1.secrets = [oldSecret] ∧
      w1.requests =
        [] ++ [.get { Namespace := "rhtap", Name := "rhtap-bitbucket-integration" }] :=
  Create_conflict sampleEnv (sampleIntegration false "tok" "bitbucket.org" "alice")
    (sampleWorld [oldSecret]) { Namespace := "rhtap" } rfl rfl rfl

/-- C4, as stated, fails: the target secret is stored and force is off, but
the existence check itself fails; Create returns the error of the check,
which does not wrap ErrSecretAlreadyExists. -/
theorem Create_conflict_counterexample :
    ¬ ∀ (env : Env) (g : BitBucketIntegration) (w : World) (feature : FeatureSpec),
        g.cfg.GetFeature env.RedHatDeveloperHub = .ok feature →
        w.has { Namespace := feature.GetNamespace,
                Name := "rhtap-bitbucket-integration" } = true →
        g.force = false →
        ∃ err w1, Create env g w = some (some err, w1) ∧
          err.Is env.ErrSecretAlreadyExists = true ∧
          (feature.GetNamespace ++ "/" ++ "rhtap-bitbucket-integration").data <:+:
            err.Error.data ∧
          w1.secrets = w.secrets ∧
          w1.requests = w.requests ++
            [.get { Namespace := feature.GetNamespace,
                    Name := "rhtap-bitbucket-integration" }] := by
  intro h
  obtain ⟨err, w1, hrun, his, _⟩ :=
    h sampleEnv (sampleIntegration false "tok" "bitbucket.org" "alice")
      { sampleWorld [oldSecret] with existsErr := some (.new "forbidden") }
      { Namespace := "rhtap" } rfl (by decide) rfl
  obtain ⟨w2, hprep, _⟩ :=
    prepareSecret_exists_fails sampleEnv (sampleIntegration false "tok" "bitbucket.org" "alice")
      ((log (sampleIntegration false "tok" "bitbucket.org" "alice")).Info
        "Inspecting the cluster for an existing BitBucket integration secret"
        { sampleWorld [oldSecret] with existsErr := some (.new "forbidden") })
      { Namespace := "rhtap" } (.new "forbidden") rfl rfl
  rw [Create_of_prepareSecret_error _ _ _ _ _ hprep] at hrun
  simp only [Option.some.injEq, Prod.mk.injEq] at hrun
  rw [← hrun.1] at his
  revert his
  decide

/-- C5: with force off, no secret under the target identity and no failing
call, a first Create succeeds and adds exactly one secret, under the target
identity; a second Create then fails with an error wrapping
ErrSecretAlreadyExists, leaves the stored secrets as the first call left them
and issues nothing but the existence check. -/
theorem Create_twice (env : Env) (g : BitBucketIntegration) (w : World)
    (feature : FeatureSpec)
    (hcfg : g.cfg.GetFeature env.RedHatDeveloperHub = .ok feature)
    (hforce : g.force = false)
    (habsent : w.has (targetName feature.GetNamespace) = false)
    (hex : w.existsErr = none) (hcl : w.clientErr = none) (hcr : w.createErr = none) :
    ∃ w1 err w2,
      Create env g w = some (none, w1) ∧
      w1.secrets = w.secrets ++
        [expectedSecret feature.GetNamespace g.appPassword g.host g.username] ∧
      w.stored (targetName feature.GetNamespace) = [] ∧
      w1.stored (targetName feature.GetNamespace) =
        [expectedSecret feature.GetNamespace g.appPassword g.host g.username] ∧
      Create env g w1 = some (some err, w2) ∧
      err.Is env.ErrSecretAlreadyExists = true ∧
      w2.secrets = w1.secrets ∧
      w2.requests = w1.requests ++ [.get (targetName feature.GetNamespace)] := by
  obtain ⟨w1, hrun1, hs1, _, hex1, _, _, _⟩ :=
    Create_absent env g w feature hcfg habsent hex hcl hcr
  have hnil := World.stored_of_has_false w _ habsent
  have hstored : w1.stored (targetName feature.GetNamespace) =
      [expectedSecret feature.GetNamespace g.appPassword g.host g.username] := by
    have hnil1 := hnil
    simp only [World.stored] at hnil1 ⊢
    rw [hs1, List.filter_append, hnil1]
    simp [expectedSecret_key]
  have hhas1 : w1.has (targetName feature.GetNamespace) = true := by
    simp only [World.has, hs1, List.any_append]
    simp [expectedSecret_key]
  obtain ⟨w2, hrun2, hs2, hr2⟩ :=
    Create_present_noforce env g w1 feature hcfg hhas1 (hex1.trans hex) hforce
  exact ⟨w1, _, w2, hrun1, hs1, hnil, hstored, hrun2, Errorf_w_s_Is _ _, hs2, hr2⟩

/-- Witness of C5: a cluster holding only a secret of another integration. -/
theorem Create_twice_witness :
    ∃ w1 err w2,
      Create sampleEnv (sampleIntegration false "tok" "bitbucket.org" "alice")
        (sampleWorld [otherSecret]) = some (none, w1) ∧
      w1.secrets = [otherSecret] ++ [expectedSecret "rhtap" "tok" "bitbucket.org" "alice"] ∧
      (sampleWorld [otherSecret]).stored (targetName "rhtap") = [] ∧
      w1.stored (targetName "rhtap") =
        [expectedSecret "rhtap" "tok" "bitbucket.org" "alice"] ∧
      Create sampleEnv (sampleIntegration false "tok" "bitbucket.org" "alice") w1 =
        some (some err, w2) ∧
      err.Is sampleEnv.ErrSecretAlreadyExists = true ∧
      w2.secrets = w1.secrets ∧
      w2.requests = w1.requests ++ [.get (targetName "rhtap")] :=
  Create_twice sampleEnv (sampleIntegration false "tok" "bitbucket.org" "alice")
    (sampleWorld [otherSecret]) { Namespace := "rhtap" } rfl rfl (by decide) rfl rfl rfl

/-- C6: with force on, a secret stored under the target identity and no failing
call, Create succeeds; afterwards exactly one secret is stored under the
target identity, built from the namespace and the current appPassword, host
and username alone, and the secrets under every other identity are as
before. -/
theorem Create_force_replaces (env : Env) (g : BitBucketIntegration) (w : World)
    (feature : FeatureSpec)
    (hcfg : g.cfg.GetFeature env.RedHatDeveloperHub = .ok feature)
    (hforce : g.force = true)
    (hhas : w.has (targetName feature.GetNamespace) = true)
    (hex : w.existsErr = none) (hdel : w.deleteErr = none)
    (hcl : w.clientErr = none) (hcr : w.createErr = none) :
    ∃ w1, Create env g w = some (none, w1) ∧
      w1.stored { Namespace := feature.GetNamespace, Name := "rhtap-bitbucket-integration" } =
        [{ Namespace := feature.GetNamespace,
           Name := "rhtap-bitbucket-integration",
           Typ := SecretTypeOpaque,
           Data := [ ("appPassword", toBytes g.appPassword),
                     ("host", toBytes g.host),
                     ("username", toBytes g.username) ] }] ∧
      w1.others { Namespace := feature.GetNamespace, Name := "rhtap-bitbucket-integration" } =
        w.others { Namespace := feature.GetNamespace, Name := "rhtap-bitbucket-integration" } := by
  obtain ⟨w1, hrun, hs, _⟩ := Create_force env g w feature hcfg hforce hhas hex hdel hcl hcr
  refine ⟨w1, hrun, ?_, ?_⟩
  · show w1.stored (targetName feature.GetNamespace) =
      [expectedSecret feature.GetNamespace g.appPassword g.host g.username]
    simp only [World.stored, hs, List.filter_append, World.stored_others]
    simp [expectedSecret_key]
  · show w1.others (targetName feature.GetNamespace) = w.others (targetName feature.GetNamespace)
    have h1 : w1.others (targetName feature.GetNamespace) =
        w1.secrets.filter (fun s => decide (s.key ≠ targetName feature.GetNamespace)) := rfl
    rw [h1, hs, List.filter_append, World.others_others]
    simp [expectedSecret_key]

/-- Witness of C6: the old payload under the target identity is replaced, the
secret of the other integration stays. -/
theorem Create_force_replaces_witness :
    ∃ w1,
      Create sampleEnv (sampleIntegration true "tok" "bitbucket.org" "alice")
        (sampleWorld [oldSecret, otherSecret]) = some (none, w1) ∧
      w1.stored { Namespace := "rhtap", Name := "rhtap-bitbucket-integration" } =
        [{ Namespace := "rhtap",
           Name := "rhtap-bitbucket-integration",
           Typ := SecretTypeOpaque,
           Data := [ ("appPassword", toBytes "tok"),
                     ("host", toBytes "bitbucket.org"),
                     ("username", toBytes "alice") ] }] ∧
      w1.others { Namespace := "rhtap", Name := "rhtap-bitbucket-integration" } =
        (sampleWorld [oldSecret, otherSecret]).others
          { Namespace := "rhtap", Name := "rhtap-bitbucket-integration" } :=
  Create_force_replaces sampleEnv (sampleIntegration true "tok" "bitbucket.org" "alice")
    (sampleWorld [oldSecret, otherSecret]) { Namespace := "rhtap" } rfl rfl (by decide)
    rfl rfl rfl rfl

/-- C7: when a client for the namespace is obtained, store submits one create
request, scoped to the namespace of the Red Hat Developer Hub feature, for a
secret in that namespace named "rhtap-bitbucket-integration", of type Opaque,
whose data has the three keys appPassword, host and username, each with the
bytes of the field as they are (the UTF-8 bytes the string consists of, as
many as its length); when the request succeeds that secret is what is
stored. -/
theorem store_submits (env : Env) (g : BitBucketIntegration) (w : World)
    (feature : FeatureSpec)
    (hcfg : g.cfg.GetFeature env.RedHatDeveloperHub = .ok feature)
    (hcl : w.clientErr = none) :
    ∃ r w1, store env g w = some (r, w1) ∧
      w1.requests = w.requests ++
        [.create feature.GetNamespace
          { Namespace := feature.GetNamespace,
            Name := "rhtap-bitbucket-integration",
            Typ := "Opaque",
            Data := [ ("appPassword", g.appPassword.toUTF8.data.toList),
                      ("host", g.host.toUTF8.data.toList),
                      ("username", g.username.toUTF8.data.toList) ] }] ∧
      (r = none → w1.secrets = w.secrets ++
        [{ Namespace := feature.GetNamespace,
           Name := "rhtap-bitbucket-integration",
           Typ := "Opaque",
           Data := [ ("appPassword", g.appPassword.toUTF8.data.toList),
                     ("host", g.host.toUTF8.data.toList),
                     ("username", g.username.toUTF8.data.toList) ] }]) ∧
      (g.appPassword.toUTF8.data.toList).length = g.appPassword.utf8ByteSize ∧
      (g.host.toUTF8.data.toList).length = g.host.utf8ByteSize ∧
      (g.username.toUTF8.data.toList).length = g.username.utf8ByteSize := by
  have hlen : ∀ s : String, (s.toUTF8.data.toList).length = s.utf8ByteSize := by
    intro s
    have h := String.size_toUTF8 s
    simpa [ByteArray.size] using h
  refine (?_ : ∃ r w1, store env g w = some (r, w1) ∧
      w1.requests = w.requests ++ [.create feature.GetNamespace
        (expectedSecret feature.GetNamespace g.appPassword g.host g.username)] ∧
      (r = none → w1.secrets = w.secrets ++
        [expectedSecret feature.GetNamespace g.appPassword g.host g.username]) ∧
      (g.appPassword.toUTF8.data.toList).length = g.appPassword.utf8ByteSize ∧
      (g.host.toUTF8.data.toList).length = g.host.utf8ByteSize ∧
      (g.username.toUTF8.data.toList).length = g.username.utf8ByteSize)
  rw [store_eq env g w feature hcfg]
  cases hcr : w.createErr with
  | some e =>
    simp only [CoreV1ClientSet, SecretsCreate, Logger.Info, Logger.Debug, hcl, hcr,
      World.emit_clientErr, World.emit_createErr]
    exact ⟨_, _, rfl, by simp, by simp, hlen _, hlen _, hlen _⟩
  | none =>
    cases hhas : w.has (targetName feature.GetNamespace) with
    | false =>
      simp only [CoreV1ClientSet, SecretsCreate, Logger.Info, Logger.Debug, hcl, hcr, hhas,
        expectedSecret_key, World.emit_clientErr, World.emit_createErr, World.emit_has]
      exact ⟨_, _, rfl, by simp, by simp, hlen _, hlen _, hlen _⟩
    | true =>
      simp only [CoreV1ClientSet, SecretsCreate, Logger.Info, Logger.Debug, hcl, hcr, hhas,
        expectedSecret_key, World.emit_clientErr, World.emit_createErr, World.emit_has]
      exact ⟨_, _, rfl, by simp, by simp, hlen _, hlen _, hlen _⟩

/-- Witness of C7: the fields tok, an empty host and alice, validated, against
an empty cluster: the data holds the bytes of tok, bitbucket.org and alice. -/
theorem store_submits_witness :
    ∃ r w1,
      store sampleEnv (Validate (sampleIntegration false "tok" "" "alice")).2 (sampleWorld []) =
        some (r, w1) ∧
      w1.requests =
        [.create "rhtap"
          { Namespace := "rhtap",
            Name := "rhtap-bitbucket-integration",
            Typ := "Opaque",
            Data := [ ("appPassword", [116, 111, 107]),
                      ("host", [98, 105, 116, 98, 117, 99, 107, 101, 116, 46, 111, 114, 103]),
                      ("username", [97, 108, 105, 99, 101]) ] }] ∧
      (r = none → w1.secrets =
        [{ Namespace := "rhtap",
           Name := "rhtap-bitbucket-integration",
           Typ := "Opaque",
           Data := [ ("appPassword", [116, 111, 107]),
                     ("host", [98, 105, 116, 98, 117, 99, 107, 101, 116, 46, 111, 114, 103]),
                     ("username", [97, 108, 105, 99, 101]) ] }]) := by
  obtain ⟨r, w1, hrun, hreq, hsec, _⟩ :=
    store_submits sampleEnv (Validate (sampleIntegration false "tok" "" "alice")).2
      (sampleWorld []) { Namespace := "rhtap" } rfl rfl
  exact ⟨r, w1, hrun, hreq, hsec⟩

/-- C9: Create stops at the first failing step. Whatever error prepareSecret
returns, Create returns it with the cluster as prepareSecret left it and no
create request issued. The failing steps of prepareSecret do produce such an
error: a failing existence check gives its error after the get request alone;
a secret found with force off gives the conflict error after the get request
alone; with force on a failing delete gives its error after the get and the
delete request; in all three the stored secrets are as before. With force on,
a stored secret, a delete that goes through and a create request failing with
an error, Create returns that error and nothing is stored under the target
identity afterwards. -/
theorem Create_no_compensation (env : Env) (g : BitBucketIntegration) (w : World) :
    (∀ err w1,
      prepareSecret env g ((log g).Info
        "Inspecting the cluster for an existing BitBucket integration secret" w) =
          some (some err, w1) →
      Create env g w = some (some err, w1) ∧
      ∀ ns secret, Request.create ns secret ∈ w1.requests →
        Request.create ns secret ∈ w.requests) ∧
    (∀ feature err,
      g.cfg.GetFeature env.RedHatDeveloperHub = .ok feature →
      w.existsErr = some err →
      ∃ w1,
        prepareSecret env g ((log g).Info
          "Inspecting the cluster for an existing BitBucket integration secret" w) =
            some (some err, w1) ∧
        Create env g w = some (some err, w1) ∧
        w1.secrets = w.secrets ∧
        w1.requests = w.requests ++
          [.get { Namespace := feature.GetNamespace,
                  Name := "rhtap-bitbucket-integration" }]) ∧
    (∀ feature,
      g.cfg.GetFeature env.RedHatDeveloperHub = .ok feature →
      w.has { Namespace := feature.GetNamespace, Name := "rhtap-bitbucket-integration" } = true →
      w.existsErr = none → g.force = false →
      ∃ err w1,
        prepareSecret env g ((log g).Info
          "Inspecting the cluster for an existing BitBucket integration secret" w) =
            some (some err, w1) ∧
        Create env g w = some (some err, w1) ∧
        err.Is env.ErrSecretAlreadyExists = true ∧
        w1.secrets = w.secrets ∧
        w1.requests = w.requests ++
          [.get { Namespace := feature.GetNamespace,
                  Name := "rhtap-bitbucket-integration" }]) ∧
    (∀ feature err,
      g.cfg.GetFeature env.RedHatDeveloperHub = .ok feature →
      w.has { Namespace := feature.GetNamespace, Name := "rhtap-bitbucket-integration" } = true →
      w.existsErr = none → g.force = true → w.deleteErr = some err →
      ∃ w1,
        prepareSecret env g ((log g).Info
          "Inspecting the cluster for an existing BitBucket integration secret" w) =
            some (some err, w1) ∧
        Create env g w = some (some err, w1) ∧
        w1.secrets = w.secrets ∧
        w1.requests = w.requests ++
          [.get { Namespace := feature.GetNamespace,
                  Name := "rhtap-bitbucket-integration" },
           .delete { Namespace := feature.GetNamespace,
                     Name := "rhtap-bitbucket-integration" }]) ∧
    (∀ feature err,
      g.cfg.GetFeature env.RedHatDeveloperHub = .ok feature →
      g.force = true →
      w.has { Namespace := feature.GetNamespace, Name := "rhtap-bitbucket-integration" } = true →
      w.existsErr = none → w.deleteErr = none → w.clientErr = none →
      w.createErr = some err →
      ∃ w1, Create env g w = some (some err, w1) ∧
        w1.has { Namespace := feature.GetNamespace,
                 Name := "rhtap-bitbucket-integration" } = false ∧
        w1.secrets = w.others { Namespace := feature.GetNamespace,
                                Name := "rhtap-bitbucket-integration" }) := by
  refine ⟨?_, ?_, ?_, ?_, ?_⟩
  · intro err w1 h
    refine ⟨Create_of_prepareSecret_error env g w err w1 h, ?_⟩
    intro ns secret hmem
    have := prepareSecret_requests env g _ _ _ h ns secret hmem
    simpa [Logger.Info] using this
  · intro feature err hcfg hex
    obtain ⟨w1, hprep, hs, hr⟩ :=
      prepareSecret_exists_fails env g ((log g).Info
        "Inspecting the cluster for an existing BitBucket integration secret" w)
        feature err hcfg hex
    exact ⟨w1, hprep, Create_of_prepareSecret_error env g w err w1 hprep, hs, hr⟩
  · intro feature hcfg hhas hex hforce
    obtain ⟨w1, hprep, hs, hr⟩ :=
      prepareSecret_conflict env g ((log g).Info
        "Inspecting the cluster for an existing BitBucket integration secret" w)
        feature hcfg hhas hex hforce
    exact ⟨_, w1, hprep, Create_of_prepareSecret_error env g w _ w1 hprep,
      Errorf_w_s_Is _ _, hs, hr⟩
  · intro feature err hcfg hhas hex hforce hdel
    obtain ⟨w1, hprep, hs, hr⟩ :=
      prepareSecret_delete_fails env g ((log g).Info
        "Inspecting the cluster for an existing BitBucket integration secret" w)
        feature err hcfg hhas hex hforce hdel
    exact ⟨w1, hprep, Create_of_prepareSecret_error env g w err w1 hprep, hs, hr⟩
  · intro feature err hcfg hforce hhas hex hdel hcl hcr
    obtain ⟨w1, hrun, hs, _⟩ :=
      Create_force_create_fails env g w feature err hcfg hforce hhas hex hdel hcl hcr
    refine ⟨w1, hrun, ?_, hs⟩
    show w1.has (targetName feature.GetNamespace) = false
    simp [World.has, hs, World.others, List.any_eq_false]

/-- Witness of C9: a failing existence check, a conflict, a failing delete and
a failing create request after a forced delete, each on a cluster that stores
the secret. -/
theorem Create_no_compensation_witness :
    (Create sampleEnv (sampleIntegration true "tok" "bitbucket.org" "alice")
        { sampleWorld [oldSecret] with existsErr := some (.new "forbidden") } =
      some (some (.new "forbidden"),
        ((log (sampleIntegration true "tok" "bitbucket.org" "alice")).Debug
          "Checking if integration secret exists"
          ((log (sampleIntegration true "tok" "bitbucket.org" "alice")).Info
            "Inspecting the cluster for an existing BitBucket integration secret"
            { sampleWorld [oldSecret] with existsErr := some (.new "forbidden") })).issue
          (.get { Namespace := "rhtap", Name := "rhtap-bitbucket-integration" }))) ∧
    (∃ w1, Create sampleEnv (sampleIntegration true "tok" "bitbucket.org" "alice")
        { sampleWorld [oldSecret] with existsErr := some (.new "forbidden") } =
          some (some (.new "forbidden"), w1) ∧
      w1.secrets = [oldSecret] ∧
      w1.requests = [.get { Namespace := "rhtap", Name := "rhtap-bitbucket-integration" }]) ∧
    (∃ err w1, Create sampleEnv (sampleIntegration false "tok" "bitbucket.org" "alice")
        (sampleWorld [oldSecret]) = some (some err, w1) ∧
      err.Is sampleEnv.ErrSecretAlreadyExists = true ∧
      w1.secrets = [oldSecret] ∧
      w1.requests = [.get { Namespace := "rhtap", Name := "rhtap-bitbucket-integration" }]) ∧
    (∃ w1, Create sampleEnv (sampleIntegration true "tok" "bitbucket.org" "alice")
        { sampleWorld [oldSecret] with deleteErr := some (.new "denied") } =
          some (some (.new "denied"), w1) ∧
      w1.secrets = [oldSecret] ∧
      w1.requests =
        [.get { Namespace := "rhtap", Name := "rhtap-bitbucket-integration" },
         .delete { Namespace := "rhtap", Name := "rhtap-bitbucket-integration" }]) ∧
    (∃ w1, Create sampleEnv (sampleIntegration true "tok" "bitbucket.org" "alice")
        { sampleWorld [oldSecret, otherSecret] with createErr := some (.new "quota") } =
          some (some (.new "quota"), w1) ∧
      w1.has { Namespace := "rhtap", Name := "rhtap-bitbucket-integration" } = false ∧
      w1.secrets = [otherSecret]) := by
  refine ⟨?_, ?_, ?_, ?_, ?_⟩
  · exact ((Create_no_compensation sampleEnv
      (sampleIntegration true "tok" "bitbucket.org" "alice")
      { sampleWorld [oldSecret] with existsErr := some (.new "forbidden") }).1
      (.new "forbidden") _ rfl).1
  · obtain ⟨w1, _, hrun, hs, hr⟩ :=
      (Create_no_compensation sampleEnv (sampleIntegration true "tok" "bitbucket.org" "alice")
        { sampleWorld [oldSecret] with existsErr := some (.new "forbidden") }).2.1
        { Namespace := "rhtap" } (.new "forbidden") rfl rfl
    exact ⟨w1, hrun, hs, hr⟩
  · obtain ⟨err, w1, _, hrun, his, hs, hr⟩ :=
      (Create_no_compensation sampleEnv (sampleIntegration false "tok" "bitbucket.org" "alice")
        (sampleWorld [oldSecret])).2.2.1 { Namespace := "rhtap" } rfl (by decide) rfl rfl
    exact ⟨err, w1, hrun, his, hs, hr⟩
  · obtain ⟨w1, _, hrun, hs, hr⟩ :=
      (Create_no_compensation sampleEnv (sampleIntegration true "tok" "bitbucket.org" "alice")
        { sampleWorld [oldSecret] with deleteErr := some (.new "denied") }).2.2.2.1
        { Namespace := "rhtap" } (.new "denied") rfl (by decide) rfl rfl rfl
    exact ⟨w1, hrun, hs, hr⟩
  · exact (Create_no_compensation sampleEnv
      (sampleIntegration true "tok" "bitbucket.org" "alice")
      { sampleWorld [oldSecret, otherSecret] with createErr := some (.new "quota") }).2.2.2.2
      { Namespace := "rhtap" } (.new "quota") rfl rfl (by decide) rfl rfl rfl rfl

end Integrations
